import Mathlib

/-!
Verification of the content-moderation and knowledge-base pipeline of the
`agent` Django application (`src/agent/utils.py`, `src/agent/models.py`).

Texts are embedded as `List Char`.  Python `str.lower()`, `\s` and `\w` are
modelled on the alphabets the repository actually handles (ASCII plus the
Russian and Kazakh Cyrillic letters used by the default filters, the block
notice and the language-detection regexes); they act as the identity
elsewhere.  Regular-expression rules (`filter_type == 'pattern'`) evaluate an
arbitrary admin-supplied regex, so the two regex operations
(`re.search` in `_matches_filter`, `re.sub` in `_apply_censorship`) are kept
as explicit function parameters (`rm`, `rs`) that every theorem quantifies
over; a regex that raises at match time is a `rm` returning `false`, matching
the `try/except` in the source.  Wall-clock response times (floats) are not
modelled; timestamps are integers (seconds).
-/

namespace AIChat

/-- Text as a list of characters (Python `str`). -/
abbrev Str := List Char

/-- `ContentFilter.SEVERITY_CHOICES` from `src/agent/models.py`. -/
inductive Severity
  | low
  | medium
  | high
deriving DecidableEq, Repr

/-- `ContentFilter.FILTER_TYPE_CHOICES` from `src/agent/models.py`. -/
inductive FilterType
  | banned_word
  | phrase
  | pattern
deriving DecidableEq, Repr

/-- `ModerationLog.ACTION_CHOICES` from `src/agent/models.py`. -/
inductive Action
  | warned
  | censored
  | blocked
deriving DecidableEq, Repr

/-- The `content_type` argument of `ContentModerator.filter_content`. -/
inductive CType
  | ai_response
  | faq_result
  | user_input
deriving DecidableEq, Repr

/-- Language codes used by the repository (`ru`/`en`/`kk`/`all`/`auto`). -/
inductive Lang
  | all
  | auto
  | ru
  | en
  | kk
deriving DecidableEq, Repr

/-- A `ContentFilter` row (`src/agent/models.py`).  `updated_at` is an
integer timestamp. -/
structure ContentFilter where
  id : Nat
  filter_type : FilterType
  content : Str
  severity : Severity
  replacement : Str
  is_active : Bool
  applies_to_ai : Bool
  applies_to_faq : Bool
  applies_to_input : Bool
  language : Lang
  updated_at : Int
deriving DecidableEq, Repr

/-- Python `str.lower()` restricted to the alphabets in play: ASCII letters,
the Russian Cyrillic range `А..Я` (U+0410..U+042F, lowered by +0x20), `Ё`,
and the Kazakh-specific capitals; identity on every other character. -/
def pyToLower (c : Char) : Char :=
  if 'A' ≤ c ∧ c ≤ 'Z' then Char.ofNat (c.toNat + 32)
  else if 0x410 ≤ c.toNat ∧ c.toNat ≤ 0x42F then Char.ofNat (c.toNat + 32)
  else if c = 'Ё' then 'ё'
  else if c = 'І' then 'і'
  else if c = 'Ә' then 'ә'
  else if c = 'Ғ' then 'ғ'
  else if c = 'Қ' then 'қ'
  else if c = 'Ң' then 'ң'
  else if c = 'Ө' then 'ө'
  else if c = 'Ұ' then 'ұ'
  else if c = 'Ү' then 'ү'
  else if c = 'Һ' then 'һ'
  else c

/-- Lowercase a whole text (Python `str.lower()`). -/
def pyLower (t : Str) : Str := t.map pyToLower

/-- Python regex `\s` (whitespace), ASCII part. -/
def isPySpace (c : Char) : Bool :=
  c = ' ' || c = '\t' || c = '\n' || c = '\r' || c = Char.ofNat 11 || c = Char.ofNat 12

/-- Python regex `\w` (word character) on the alphabets in play: ASCII
alphanumerics, underscore, and the Cyrillic block U+0400..U+04FF. -/
def isWordChar (c : Char) : Bool :=
  ('a' ≤ c && c ≤ 'z') || ('A' ≤ c && c ≤ 'Z') || ('0' ≤ c && c ≤ '9') || c = '_' ||
    (0x400 ≤ c.toNat && c.toNat ≤ 0x4FF)

/-- Case-insensitive substring test: Python `needle in hay` after both sides
were lowered (`_matches_filter`, `phrase` branch). -/
def listContains (needle : Str) : Str → Bool
  | [] => needle.isEmpty
  | c :: t => needle.isPrefixOf (c :: t) || listContains needle t

/-- The lookahead `(?=\s|[^\w]|$)` of the banned-word regex in
`_matches_filter`/`_apply_censorship`: the rest of the text after the word is
empty, or starts with whitespace or a non-word character. -/
def bwRightOk : Str → Bool
  | [] => true
  | c :: _ => isPySpace c || !isWordChar c

/-- The alternation `(?:^|\s)` of the banned-word regex, expressed through
the character preceding the candidate occurrence: `none` is the start of the
text, otherwise the preceding character must be whitespace. -/
def bwPrevOk : Option Char → Bool
  | none => true
  | some c => isPySpace c

/-- `re.search` of the banned-word pattern
`(?:^|\s)`+word+`(?=\s|[^\w]|$)` (`_matches_filter`, `banned_word` branch):
scan every position of `t`, remembering the previous character. -/
def scanBW (w : Str) : Option Char → Str → Bool
  | prev, [] => bwPrevOk prev && w.isPrefixOf [] && bwRightOk (List.drop w.length [])
  | prev, c :: rest =>
    (bwPrevOk prev && w.isPrefixOf (c :: rest) && bwRightOk ((c :: rest).drop w.length))
      || scanBW w (some c) rest

/-- Case-insensitive prefix test (models the `re.IGNORECASE` flag). -/
def ciIsPrefixOf (p t : Str) : Bool := (pyLower p).isPrefixOf (pyLower t)

/-- `re.sub` of the banned-word pattern with
`lambda m: m.group().replace(m.group(1), replacement)`
(`_apply_censorship`, `banned_word` branch): left-to-right non-overlapping
replacement, keeping the consumed leading whitespace character.  The Boolean
flag records whether the scan is still at the very start of the text (where
the `^` alternative applies); the `Nat` counts characters of an already
replaced match that still have to be consumed without being emitted, so the
recursion is structural.  An empty word is left untouched (the spec's rule
invariant requires non-empty patterns). -/
def subBWGo (w repl : Str) : Bool → Nat → Str → Str
  | _, _, [] => []
  | atStart, skip, c :: rest =>
    if skip ≠ 0 then subBWGo w repl false (skip - 1) rest
    else if atStart = true ∧ w ≠ [] ∧ ciIsPrefixOf w (c :: rest) = true ∧
        bwRightOk ((c :: rest).drop w.length) = true then
      repl ++ subBWGo w repl false (w.length - 1) rest
    else if isPySpace c = true ∧ w ≠ [] ∧ ciIsPrefixOf w rest = true ∧
        bwRightOk (rest.drop w.length) = true then
      c :: (repl ++ subBWGo w repl false w.length rest)
    else
      c :: subBWGo w repl false 0 rest

/-- `re.sub(re.escape(phrase), replacement, text, flags=re.IGNORECASE)`
(`_apply_censorship`, `phrase` branch): replace every non-overlapping
case-insensitive occurrence, leftmost first.  The `Nat` counts characters of
an already replaced occurrence still to be consumed.  An empty phrase is
left untouched (spec invariant: patterns are non-empty). -/
def subPhrase (p repl : Str) : Nat → Str → Str
  | _, [] => []
  | skip, c :: rest =>
    if skip ≠ 0 then subPhrase p repl (skip - 1) rest
    else if p ≠ [] ∧ ciIsPrefixOf p (c :: rest) = true then
      repl ++ subPhrase p repl (p.length - 1) rest
    else
      c :: subPhrase p repl 0 rest

/-- The fixed block notice `"⚠️ Контент заблокирован модератором"` assigned to
`filtered_content` for high-severity matches in `filter_content`. -/
def blockNotice : Str := "⚠️ Контент заблокирован модератором".toList

/-- `re.search(r'[а-яё]', content.lower())` in `filter_content`: the lowered
text contains a character of the Russian range `а..я` (U+0430..U+044F) or `ё`. -/
def hasRuChar (t : Str) : Bool :=
  (pyLower t).any (fun c => (0x430 ≤ c.toNat && c.toNat ≤ 0x44F) || c = 'ё')

/-- `re.search(r'[қғүұңһөәі]', content.lower())` in `filter_content`: the
lowered text contains a Kazakh-specific letter. -/
def hasKkChar (t : Str) : Bool :=
  (pyLower t).any (fun c => ['қ', 'ғ', 'ү', 'ұ', 'ң', 'һ', 'ө', 'ә', 'і'].contains c)

/-- The `language == 'auto'` branch of `filter_content`: `[а-яё]` is tested
first, Kazakh-specific letters only in the `elif`. -/
def autoDetectLanguage (t : Str) : Lang :=
  if hasRuChar t then Lang.ru
  else if hasKkChar t then Lang.kk
  else Lang.en

/-- `ContentModerator._matches_filter`.  `rm` interprets
`re.search(pattern, content, re.IGNORECASE)` for `pattern`-type rules
(raising regexes are an `rm` returning `false`, per the `try/except`). -/
def matchesFilter (rm : Str → Str → Bool) (f : ContentFilter) (content : Str) : Bool :=
  match f.filter_type with
  | FilterType.banned_word => scanBW (pyLower f.content) none (pyLower content)
  | FilterType.phrase => listContains (pyLower f.content) (pyLower content)
  | FilterType.pattern => rm f.content content

/-- `ContentModerator._apply_censorship`.  `rs` interprets
`re.sub(pattern, replacement, content, re.IGNORECASE)` for `pattern`-type
rules. -/
def applyCensorship (rs : Str → Str → Str → Str) (content : Str) (f : ContentFilter) : Str :=
  let replacement := if f.replacement = [] then ['*', '*', '*'] else f.replacement
  match f.filter_type with
  | FilterType.banned_word => subBWGo f.content replacement true 0 content
  | FilterType.phrase => subPhrase f.content replacement 0 content
  | FilterType.pattern => rs f.content replacement content

/-- The stored string value of the `severity` CharField
(`ContentFilter.SEVERITY_CHOICES`). -/
def sevStr : Severity → Str
  | Severity.low => ['l', 'o', 'w']
  | Severity.medium => ['m', 'e', 'd', 'i', 'u', 'm']
  | Severity.high => ['h', 'i', 'g', 'h']

/-- Lexicographic order on strings, as the database compares the stored
`severity` values. -/
def lexLt : Str → Str → Bool
  | [], [] => false
  | [], _ :: _ => true
  | _ :: _, [] => false
  | a :: as, b :: bs => if a.val < b.val then true else if b.val < a.val then false else lexLt as bs

/-- The sort key of `.order_by('-severity', '-updated_at')` in
`filter_content`: `a` is listed before `b` when its severity string is
lexicographically greater, with ties broken by the larger (more recent)
`updated_at`. -/
def filterBefore (a b : ContentFilter) : Bool :=
  lexLt (sevStr b.severity) (sevStr a.severity) ||
    (sevStr a.severity = sevStr b.severity && b.updated_at < a.updated_at)

/-- Insert one rule into a list already sorted by `filterBefore`. -/
def insertFilter (x : ContentFilter) : List ContentFilter → List ContentFilter
  | [] => [x]
  | y :: ys => if filterBefore x y then x :: y :: ys else y :: insertFilter x ys

/-- Insertion sort realising `.order_by('-severity', '-updated_at')`. -/
def sortFilters : List ContentFilter → List ContentFilter
  | [] => []
  | x :: xs => insertFilter x (sortFilters xs)

/-- The scope flag of a rule selected for a given `content_type`
(`applies_to_ai` / `applies_to_faq` / `applies_to_input`). -/
def scopeOk (f : ContentFilter) (ct : CType) : Bool :=
  match ct with
  | CType.ai_response => f.applies_to_ai
  | CType.faq_result => f.applies_to_faq
  | CType.user_input => f.applies_to_input

/-- `Q(language='all') | Q(language=language)` in `filter_content`. -/
def langOk (f : ContentFilter) (lang : Lang) : Bool :=
  f.language = Lang.all || f.language = lang

/-- The candidate rule list of `filter_content`:
`ContentFilter.objects.filter(is_active, scope, language).order_by('-severity', '-updated_at')`. -/
def applicableFilters (rules : List ContentFilter) (ct : CType) (lang : Lang) : List ContentFilter :=
  sortFilters (rules.filter (fun f => f.is_active && scopeOk f ct && langOk f lang))

/-- The mutable loop state of `filter_content`
(`filtered_content`, `matched_filters`, `highest_severity`, `action_taken`). -/
structure LoopState where
  filtered : Str
  matched : List ContentFilter
  highest : Severity
  action : Option Action
deriving DecidableEq, Repr

/-- One iteration of the `for content_filter in filters:` loop of
`filter_content`. -/
def stepFilter (rm : Str → Str → Bool) (rs : Str → Str → Str → Str)
    (s : LoopState) (f : ContentFilter) : LoopState :=
  if matchesFilter rm f s.filtered then
    let s1 : LoopState := { s with matched := s.matched ++ [f] }
    if f.severity = Severity.high ∧ s1.action = none then
      { s1 with filtered := blockNotice, action := some Action.blocked, highest := Severity.high }
    else if f.severity = Severity.medium ∧ s1.action ≠ some Action.blocked then
      { s1 with filtered := applyCensorship rs s1.filtered f,
                action := some Action.censored, highest := Severity.medium }
    else if f.severity = Severity.low ∧ s1.action = none then
      { s1 with action := some Action.warned }
    else s1
  else s

/-- The result dictionary of `filter_content` (`severity` is absent from the
early empty-content return, hence an `Option`). -/
structure ModResult where
  original_content : Str
  filtered_content : Str
  is_filtered : Bool
  action : Option Action
  matched_filters : List Nat
  severity : Option Severity
deriving DecidableEq, Repr

/-- A `ModerationLog` row as created by `ContentModerator._log_moderation`. -/
structure ModLogRec where
  original_content : Str
  modified_content : Str
  action : Option Action
  filter_matched : Option Nat
  content_type : CType
  session_id : Option Str
  ip_address : Option Str
deriving DecidableEq, Repr

/-- The language actually used for rule selection: the `auto` branch of
`filter_content` runs `autoDetectLanguage`, any other value is kept. -/
def resolveLang (language : Lang) (content : Str) : Lang :=
  if language = Lang.auto then autoDetectLanguage content else language

/-- `ContentModerator.filter_content`.  Returns the result dictionary
together with the `ModerationLog` row handed to `_log_moderation` (`none`
when no rule matched; `_log_moderation` swallows its own write errors, so no
failure can escape from here). -/
def filter_content (rm : Str → Str → Bool) (rs : Str → Str → Str → Str)
    (rules : List ContentFilter) (content : Str) (content_type : CType)
    (language : Lang) (session_id ip : Option Str) : ModResult × Option ModLogRec :=
  if content.all isPySpace then
    ({ original_content := content, filtered_content := content, is_filtered := false,
       action := none, matched_filters := [], severity := none }, none)
  else
    let fs := applicableFilters rules content_type (resolveLang language content)
    let st := fs.foldl (stepFilter rm rs)
      { filtered := content, matched := [], highest := Severity.low, action := none }
    let logRec :=
      if st.matched.isEmpty then none
      else some { original_content := content, modified_content := st.filtered,
                  action := st.action, filter_matched := (st.matched.head?).map ContentFilter.id,
                  content_type := content_type, session_id := session_id, ip_address := ip }
    ({ original_content := content, filtered_content := st.filtered,
       is_filtered := !st.matched.isEmpty, action := st.action,
       matched_filters := st.matched.map ContentFilter.id,
       severity := some st.highest }, logRec)

/-- Which of the two knowledge stores a row lives in (`FAQEntry` versus
`KnowledgeBaseEntry`). -/
inductive Store
  | faq
  | kb
deriving DecidableEq, Repr

/-- A knowledge row of either store.  `source`, `confidence_score` and
`is_verified` exist only on `KnowledgeBaseEntry` rows, hence the `Option`s. -/
structure KnowledgeEntry where
  store : Store
  id : Nat
  question : Str
  answer : Str
  category : Str
  keywords : Str
  language : Lang
  source : Option Str
  confidence_score : Option ℚ
  is_verified : Option Bool
  is_active : Bool
deriving DecidableEq, Repr

/-- Django `field__icontains=query`: case-insensitive containment of the
query in the field. -/
def icontains (field query : Str) : Bool := listContains (pyLower query) (pyLower field)

/-- The per-entry match predicate of `KnowledgeBaseManager.search_faq`:
active, category (when given), and `query` contained in question, answer or
keywords. -/
def searchPred (query : Str) (category : Option Str) (e : KnowledgeEntry) : Bool :=
  e.is_active && (match category with | none => true | some c => decide (e.category = c)) &&
    (icontains e.question query || icontains e.answer query || icontains e.keywords query)

/-- `KnowledgeBaseManager.search_faq`: empty queries return nothing,
otherwise each store is filtered and capped at `limit // 2`, FAQ rows first.
The store lists are taken in database scan order. -/
def search_faq (faqStore kbStore : List KnowledgeEntry) (query : Str)
    (category : Option Str) (limit : Nat) : List KnowledgeEntry :=
  if query.all isPySpace then []
  else
    (faqStore.filter (searchPred query category)).take (limit / 2) ++
      (kbStore.filter (searchPred query category)).take (limit / 2)

/-- Python `str.split()` (no argument): whitespace-delimited tokens, empties
dropped.  The first argument accumulates the current token, reversed. -/
def splitWsGo : Str → Str → List Str
  | acc, [] => if acc.isEmpty then [] else [acc.reverse]
  | acc, c :: rest =>
    if isPySpace c then
      if acc.isEmpty then splitWsGo [] rest else acc.reverse :: splitWsGo [] rest
    else splitWsGo (c :: acc) rest

/-- `user_message.lower().split()` in `get_context_for_ai`. -/
def splitWs (t : Str) : List Str := splitWsGo [] t

/-- The accumulation loop of `get_context_for_ai`: for every token longer
than 2 characters, `search_faq(keyword, limit=2)` results are appended. -/
def relevantEntries (faqStore kbStore : List KnowledgeEntry) (msg : Str) : List KnowledgeEntry :=
  (splitWs (pyLower msg)).foldl
    (fun acc kw => if 2 < kw.length then acc ++ search_faq faqStore kbStore kw none 2 else acc) []

/-- The deduplication loop of `get_context_for_ai`: skip entries whose `id`
was already seen, stop once `max_entries` unique entries are collected (the
`break` fires after the append, so the element reaching the cap is kept). -/
def dedupLoop (maxE : Nat) : List KnowledgeEntry → List Nat → List KnowledgeEntry
  | [], _ => []
  | e :: rest, seen =>
    if seen.contains e.id then dedupLoop maxE rest seen
    else if maxE ≤ seen.length + 1 then [e]
    else e :: dedupLoop maxE rest (e.id :: seen)

/-- `KnowledgeBaseManager.get_context_for_ai`. -/
def get_context_for_ai (faqStore kbStore : List KnowledgeEntry) (msg : Str)
    (maxE : Nat) : List KnowledgeEntry :=
  dedupLoop maxE (relevantEntries faqStore kbStore msg) []

/-- A `SearchQuery` row (`src/agent/models.py`), the spec's PendingQuery. -/
structure SearchQueryRec where
  query : Str
  language : Lang
  results_found : Bool
  should_add_to_kb : Bool
  added_to_kb : Bool
  ai_response : Option Str
  session_id : Option Str
  created_at : Int
deriving DecidableEq, Repr

/-- The lowercase ASCII alphabet literal of the language-detection snippets
in `log_search_query_for_kb` and `generate_kb_entry_from_response`. -/
def asciiLowercase : Str := "abcdefghijklmnopqrstuvwxyz".toList

/-- The `english_words` list of those snippets. -/
def englishWords : List Str :=
  ["schedule".toList, "document".toList, "exam".toList, "scholarship".toList, "admin".toList]

/-- The shared language-detection snippet: default `ru`; if the raw message
contains a lowercase ASCII letter and one of the English keywords occurs in
the lowered message, `en`. -/
def kbDetectLanguage (m : Str) : Lang :=
  if asciiLowercase.any (fun c => m.contains c) then
    if englishWords.any (fun w => listContains w (pyLower m)) then Lang.en else Lang.ru
  else Lang.ru

/-- `SearchQuery.objects.filter(query=..., session_id=..., created_at__gte=now - 1h)`
in `log_search_query_for_kb`. -/
def hasRecentDuplicate (qs : List SearchQueryRec) (q : Str) (sid : Option Str) (now : Int) : Bool :=
  qs.any (fun r => decide (r.query = q) && decide (r.session_id = sid) &&
    decide (now - 3600 ≤ r.created_at))

/-- The row `log_search_query_for_kb` creates, or `none` when a recent
duplicate suppresses the write. -/
def newSearchQueryFor (qs : List SearchQueryRec) (q : Str) (sid : Option Str)
    (now : Int) : Option SearchQueryRec :=
  if hasRecentDuplicate qs q sid now then none
  else some { query := q, language := kbDetectLanguage q, results_found := false,
              should_add_to_kb := true, added_to_kb := false, ai_response := none,
              session_id := sid, created_at := now }

/-- `ChatManager.log_search_query_for_kb` as a transformation of the
`SearchQuery` table. -/
def log_search_query_for_kb (qs : List SearchQueryRec) (q : Str) (sid : Option Str)
    (now : Int) : List SearchQueryRec :=
  match newSearchQueryFor qs q sid now with
  | none => qs
  | some r => qs ++ [r]

/-- The `category_keywords` table of `generate_kb_entry_from_response`, in
Python dict insertion order. -/
def categoryKeywordTable : List (Str × List Str) :=
  [ ("schedules".toList, ["расписание".toList, "schedule".toList, "занятие".toList,
      "lesson".toList, "пара".toList]),
    ("documents".toList, ["документ".toList, "document".toList, "справка".toList,
      "certificate".toList, "заявление".toList]),
    ("scholarships".toList, ["стипендия".toList, "scholarship".toList, "выплата".toList,
      "payment".toList]),
    ("exams".toList, ["экзамен".toList, "exam".toList, "зачет".toList, "test".toList,
      "сессия".toList]),
    ("administration".toList, ["администрация".toList, "admin".toList, "деканат".toList,
      "office".toList]),
    ("dormitory".toList, ["общежитие".toList, "dormitory".toList, "общага".toList,
      "hostel".toList]),
    ("library".toList, ["библиотека".toList, "library".toList, "книга".toList,
      "book".toList]),
    ("fees".toList, ["оплата".toList, "fee".toList, "плата".toList, "payment".toList,
      "стоимость".toList]) ]

/-- The first-match category lookup of `generate_kb_entry_from_response`
(fallback `general`). -/
def categoryFor (m : Str) : Str :=
  match categoryKeywordTable.find? (fun p => p.2.any (fun kw => listContains kw (pyLower m))) with
  | some p => p.1
  | none => "general".toList

/-- The `ai_response` dictionary handled by `ChatManager.process_message`:
the client's result plus the moderation keys the orchestrator may add.
Wall-clock `response_time` is not modelled. -/
structure Resp where
  success : Bool
  message : Option Str
  error : Option Str
  tokens_used : Nat
  moderated : Option Bool
  moderation_action : Option (Option Action)
deriving DecidableEq, Repr

/-- The pure part of `ChatManager.generate_kb_entry_from_response`: the
`KnowledgeBaseEntry` row it creates, or `none` when the response is
unsuccessful or shorter than 50 characters.  The primary key `id` is
database-assigned and modelled as `0`. -/
def generate_kb_entry_from_response (user_message : Str) (ai : Resp) : Option KnowledgeEntry :=
  if !ai.success || (ai.message.getD []).length < 50 then none
  else some {
    store := Store.kb, id := 0,
    question := user_message,
    answer := ai.message.getD [],
    category := categoryFor user_message,
    keywords := pyLower user_message,
    language := kbDetectLanguage user_message,
    source := some "ai_generated".toList,
    confidence_score := some (0.8 : ℚ),
    is_verified := some false,
    is_active := true }

/-- `SearchQuery.objects.filter(query=..., session_id=...).order_by('-created_at').first()`
in `generate_kb_entry_from_response` (first scan hit among rows sharing the
maximal timestamp). -/
def mostRecentMatch (qs : List SearchQueryRec) (q : Str) (sid : Option Str) :
    Option SearchQueryRec :=
  qs.foldl (fun best r =>
    if r.query = q ∧ r.session_id = sid then
      match best with
      | none => some r
      | some b => if b.created_at < r.created_at then some r else some b
    else best) none

/-- A `RequestLog` row as created at the end of `process_message`
(wall-clock `response_time` not modelled). -/
structure RequestLogRec where
  session_linked : Bool
  user_message : Str
  ai_response : Str
  api_success : Bool
  error_message : Str
  tokens_used : Nat
deriving DecidableEq, Repr

/-- The collaborators and stored state `process_message` reads, plus flags
saying which of the database writes would raise if attempted. -/
structure Env where
  rm : Str → Str → Bool
  rs : Str → Str → Str → Str
  rules : List ContentFilter
  faqStore : List KnowledgeEntry
  kbStore : List KnowledgeEntry
  searchQueries : List SearchQueryRec
  now : Int
  sessionExists : Bool
  llm : Resp
  moderationLogFails : Bool
  searchQueryWriteFails : Bool
  requestLogFails : Bool
  kbEntryWriteFails : Bool

/-- The observable side effects of one `process_message` run.  Moderation-log
rows appear only when their (best-effort) write succeeded; `promotedQuery`
is the `SearchQuery` row marked `added_to_kb` with the attached answer. -/
structure ProcTrace where
  llmCalled : Bool
  inputModLog : Option ModLogRec
  outputModLog : Option ModLogRec
  createdSearchQuery : Option SearchQueryRec
  requestLog : Option RequestLogRec
  usedFaqIds : List Nat
  usedKbIds : List Nat
  newKbEntry : Option KnowledgeEntry
  promotedQuery : Option SearchQueryRec
deriving DecidableEq, Repr

/-- The error raised by a failing unprotected database write inside
`process_message`. -/
inductive DBErr
  | searchQueryErr
  | requestLogErr
  | kbEntryErr
deriving DecidableEq, Repr

/-- Decidable equality of `process_message` outcomes, for evaluating the
embedding at concrete inputs. -/
instance : DecidableEq (Except DBErr (Resp × ProcTrace)) := fun a b =>
  match a, b with
  | Except.ok x, Except.ok y =>
    if h : x = y then Decidable.isTrue (by rw [h]) else Decidable.isFalse (by simp [h])
  | Except.error x, Except.error y =>
    if h : x = y then Decidable.isTrue (by rw [h]) else Decidable.isFalse (by simp [h])
  | Except.ok _, Except.error _ => Decidable.isFalse (by simp)
  | Except.error _, Except.ok _ => Decidable.isFalse (by simp)

/-- The failure dictionary returned when the user input is blocked:
`{'success': False, 'error': 'Сообщение заблокировано модератором', ...}`. -/
def blockedUserError : Str := "Сообщение заблокировано модератором".toList

/-- The `if ai_response.get('success') and ai_response.get('message')` step
of `process_message`: moderate the LLM output and overwrite it when
filtered.  Returns the (possibly rewritten) response and the output
moderation-log row handed to `_log_moderation`. -/
def moderatedAiResponse (env : Env) (session_id ip : Option Str) : Resp × Option ModLogRec :=
  match env.llm.message with
  | some m =>
    if env.llm.success ∧ m ≠ [] then
      let aiPair := filter_content env.rm env.rs env.rules m CType.ai_response Lang.auto session_id ip
      if aiPair.1.is_filtered then
        ({ env.llm with
            message := some aiPair.1.filtered_content,
            moderated := some true,
            moderation_action := some aiPair.1.action }, aiPair.2)
      else (env.llm, aiPair.2)
    else (env.llm, none)
  | none => (env.llm, none)

/-- `ChatManager.process_message`.  The three unprotected writes
(`SearchQuery`, `RequestLog`, `KnowledgeBaseEntry` creation) raise when
their failure flag is set and the write is actually attempted;
`_log_moderation` failures are swallowed (the row is merely lost). -/
def process_message (env : Env) (user_message : Str) (session_id ip : Option Str) :
    Except DBErr (Resp × ProcTrace) :=
  let userPair := filter_content env.rm env.rs env.rules user_message CType.user_input
    Lang.auto session_id ip
  let userMod := userPair.1
  let inLog := if env.moderationLogFails then none else userPair.2
  if userMod.action = some Action.blocked then
    Except.ok
      ({ success := false, message := some userMod.filtered_content,
         error := some blockedUserError, tokens_used := 0, moderated := some true,
         moderation_action := none },
       { llmCalled := false, inputModLog := inLog, outputModLog := none,
         createdSearchQuery := none, requestLog := none, usedFaqIds := [], usedKbIds := [],
         newKbEntry := none, promotedQuery := none })
  else
    let filtered := userMod.filtered_content
    let kb_entries := get_context_for_ai env.faqStore env.kbStore filtered 3
    let sqNew :=
      if kb_entries.isEmpty then newSearchQueryFor env.searchQueries filtered session_id env.now
      else none
    if sqNew.isSome ∧ env.searchQueryWriteFails then Except.error DBErr.searchQueryErr
    else
      let aiPair := moderatedAiResponse env session_id ip
      let ai1 := aiPair.1
      let outLog := if env.moderationLogFails then none else aiPair.2
      if env.requestLogFails then Except.error DBErr.requestLogErr
      else
        let reqLog : RequestLogRec := {
          session_linked := session_id.isSome && env.sessionExists,
          user_message := user_message,
          ai_response := ai1.message.getD [],
          api_success := ai1.success,
          error_message := ai1.error.getD [],
          tokens_used := ai1.tokens_used }
        let newEntry :=
          if kb_entries.isEmpty ∧ ai1.success then generate_kb_entry_from_response filtered ai1
          else none
        if newEntry.isSome ∧ env.kbEntryWriteFails then Except.error DBErr.kbEntryErr
        else
          let qsAfter := env.searchQueries ++ (match sqNew with | none => [] | some r => [r])
          let promoted :=
            if newEntry.isSome then
              (mostRecentMatch qsAfter filtered session_id).map (fun r =>
                { r with ai_response := some (ai1.message.getD []), added_to_kb := true })
            else none
          Except.ok (ai1,
            { llmCalled := true, inputModLog := inLog, outputModLog := outLog,
              createdSearchQuery := sqNew, requestLog := some reqLog,
              usedFaqIds := (kb_entries.filter (fun e => e.store = Store.faq)).map KnowledgeEntry.id,
              usedKbIds := (kb_entries.filter (fun e => e.store = Store.kb)).map KnowledgeEntry.id,
              newKbEntry := newEntry, promotedQuery := promoted })

/-! ### Auxiliary predicates used by the statements -/

/-- Invariant used for warn-only runs: as long as no censor or block fired,
the working text is still the original. -/
def unchangedInv (t : Str) (s : LoopState) : Prop :=
  (s.action = none ∨ s.action = some Action.warned) → s.filtered = t

/-- The left-delimiter condition actually implemented by the regex
alternation `(?:^|\s)`: the occurrence starts the text (with the scan's
previous character, if any, being whitespace), or the character directly
before it is whitespace. -/
def leftDelimOk (prev : Option Char) (pre : Str) : Prop :=
  (pre = [] ∧ bwPrevOk prev = true) ∨ ∃ pre2 c, pre = pre2 ++ [c] ∧ isPySpace c = true

/-! ### Concrete scenario data

The repository stores no `pattern`-type rule in the scenarios below, so the
regex engine is instantiated with the trivial `rmNone`/`rsId`. -/

/-- Regex oracle for rule sets without `pattern`-type rules: nothing
matches. -/
def rmNone : Str → Str → Bool := fun _ _ => false

/-- Regex substitution oracle for rule sets without `pattern`-type rules:
the text is returned unchanged. -/
def rsId : Str → Str → Str → Str := fun _ _ content => content

/-- An active high-severity banned-word rule for the word `bad`, applying to
every content type and language. -/
def c1RuleHigh : ContentFilter :=
  { id := 1, filter_type := FilterType.banned_word, content := "bad".toList,
    severity := Severity.high, replacement := "***".toList, is_active := true,
    applies_to_ai := true, applies_to_faq := true, applies_to_input := true,
    language := Lang.all, updated_at := 10 }

/-- An active low-severity banned-word rule for the word `ugly`. -/
def c1RuleLow : ContentFilter :=
  { c1RuleHigh with
      id := 2, content := "ugly".toList, severity := Severity.low, updated_at := 5 }

/-- An active high-severity banned-word rule for the word `bad`. -/
def c2RuleHigh : ContentFilter :=
  { c1RuleHigh with id := 1, updated_at := 10 }

/-- An active medium-severity banned-word rule for the word `ugly`. -/
def c2RuleMed : ContentFilter :=
  { c1RuleHigh with
      id := 3, content := "ugly".toList, severity := Severity.medium, updated_at := 5 }

/-- A successful 60-character LLM response. -/
def llmOk60 : Resp :=
  { success := true, message := some (List.replicate 60 'a'), error := none,
    tokens_used := 5, moderated := none, moderation_action := none }

/-- A successful 40-character LLM response. -/
def llmOk40 : Resp :=
  { success := true, message := some (List.replicate 40 'b'), error := none,
    tokens_used := 5, moderated := none, moderation_action := none }

/-- A benign environment: no rules, empty stores, a successful 60-character
LLM answer, and a request-log write that fails. -/
def c3Env : Env :=
  { rm := rmNone, rs := rsId, rules := [], faqStore := [], kbStore := [],
    searchQueries := [], now := 100000, sessionExists := false, llm := llmOk60,
    moderationLogFails := false, searchQueryWriteFails := false, requestLogFails := true,
    kbEntryWriteFails := false }

/-- The same environment with every unprotected write succeeding and the
best-effort moderation-log write failing. -/
def c3EnvW : Env :=
  { c3Env with requestLogFails := false, moderationLogFails := true }

/-- An active banned-word rule used for the word-boundary scenario. -/
def c4Rule : ContentFilter :=
  { c1RuleHigh with id := 4, updated_at := 0 }

/-- Environment for the auto-grown-entry scenarios: no rules, empty stores,
all writes succeed, 60-character successful answer. -/
def c6Env60 : Env :=
  { c3Env with requestLogFails := false }

/-- The same environment with a 40-character successful answer. -/
def c6Env40 : Env :=
  { c6Env60 with llm := llmOk40 }

/-- Environment for the blocked-input scenario: one active high-severity
rule for `bad`. -/
def c7Env : Env :=
  { c6Env60 with rules := [{ c1RuleHigh with id := 5, updated_at := 0 }] }

/-- A pending query recorded at time 1000 for query `q` with no session. -/
def c8Rec : SearchQueryRec :=
  { query := ['q'], language := Lang.ru, results_found := false, should_add_to_kb := true,
    added_to_kb := false, ai_response := none, session_id := none, created_at := 1000 }

/-- An active low-severity phrase rule for `bad` (warn only, no text
change). -/
def c9Rule : ContentFilter :=
  { id := 7, filter_type := FilterType.phrase, content := "bad".toList,
    severity := Severity.low, replacement := [], is_active := true,
    applies_to_ai := true, applies_to_faq := true, applies_to_input := true,
    language := Lang.all, updated_at := 0 }

/-- An active curated FAQ row with id 1 matching the token `alpha`. -/
def c10Faq : KnowledgeEntry :=
  { store := Store.faq, id := 1, question := "alpha".toList, answer := "one".toList,
    category := "general".toList, keywords := "alpha".toList, language := Lang.en,
    source := none, confidence_score := none, is_verified := none, is_active := true }

/-- An active auto-grown row that happens to share numeric id 1 and also
matches `alpha`. -/
def c10Kb : KnowledgeEntry :=
  { c10Faq with
      store := Store.kb, answer := "two".toList, source := some "manual".toList,
      confidence_score := some (1 : ℚ), is_verified := some true }

/-! ### Properties of list prefixes -/

theorem isPrefixOf_eq_true_iff (w : Str) : ∀ t : Str, w.isPrefixOf t = true ↔ ∃ post, t = w ++ post := by
  induction w with
  | nil =>
    intro t
    simp [List.isPrefixOf]
  | cons a as ih =>
    intro t
    cases t with
    | nil =>
      simp [List.isPrefixOf]
    | cons b bs =>
      simp only [List.isPrefixOf, Bool.and_eq_true, beq_iff_eq, ih bs, List.cons_append,
        List.cons.injEq]
      constructor
      · rintro ⟨h1, post, h2⟩
        exact ⟨post, h1.symm, h2⟩
      · rintro ⟨post, h1, h2⟩
        exact ⟨h1.symm, post, h2⟩

/-! ### Properties of the moderation loop -/

theorem stepFilter_no_match {rm : Str → Str → Bool} {rs : Str → Str → Str → Str}
    {s : LoopState} {f : ContentFilter} (h : matchesFilter rm f s.filtered = false) :
    stepFilter rm rs s f = s := by
  unfold stepFilter
  simp [h]

theorem loop_no_match (rm : Str → Str → Bool) (rs : Str → Str → Str → Str) :
    ∀ (fs : List ContentFilter) (s : LoopState),
      (∀ f ∈ fs, matchesFilter rm f s.filtered = false) →
      fs.foldl (stepFilter rm rs) s = s := by
  intro fs
  induction fs with
  | nil => intro s _; rfl
  | cons f rest ih =>
    intro s h
    have h1 : matchesFilter rm f s.filtered = false := h f (by simp)
    simp only [List.foldl_cons, stepFilter_no_match h1]
    exact ih s (fun g hg => h g (by simp [hg]))

theorem stepFilter_matched_of_match {rm : Str → Str → Bool} {rs : Str → Str → Str → Str}
    {s : LoopState} {f : ContentFilter} (h : matchesFilter rm f s.filtered = true) :
    (stepFilter rm rs s f).matched = s.matched ++ [f] := by
  unfold stepFilter
  rw [h]
  simp only [if_true]
  split
  · rfl
  · split
    · rfl
    · split
      · rfl
      · rfl

theorem stepFilter_matched (rm : Str → Str → Bool) (rs : Str → Str → Str → Str)
    (s : LoopState) (f : ContentFilter) :
    (stepFilter rm rs s f).matched = s.matched ∨
      (stepFilter rm rs s f).matched = s.matched ++ [f] := by
  by_cases h : matchesFilter rm f s.filtered = true
  · right; exact stepFilter_matched_of_match h
  · left
    rw [stepFilter_no_match (Bool.eq_false_iff.mpr h)]

theorem loop_matched_ne_nil (rm : Str → Str → Bool) (rs : Str → Str → Str → Str) :
    ∀ (fs : List ContentFilter) (s : LoopState),
      s.matched ≠ [] → (fs.foldl (stepFilter rm rs) s).matched ≠ [] := by
  intro fs
  induction fs with
  | nil => intro s h; exact h
  | cons f rest ih =>
    intro s h
    simp only [List.foldl_cons]
    apply ih
    rcases stepFilter_matched rm rs s f with h1 | h1 <;> rw [h1]
    · exact h
    · simp

theorem loop_matched_nil_iff (rm : Str → Str → Bool) (rs : Str → Str → Str → Str) :
    ∀ (fs : List ContentFilter) (s : LoopState), s.matched = [] →
      ((fs.foldl (stepFilter rm rs) s).matched = [] ↔
        ∀ f ∈ fs, matchesFilter rm f s.filtered = false) := by
  intro fs
  induction fs with
  | nil => intro s _; simp [*]
  | cons f rest ih =>
    intro s hs
    simp only [List.foldl_cons]
    by_cases hm : matchesFilter rm f s.filtered = true
    · have hne : (rest.foldl (stepFilter rm rs) (stepFilter rm rs s f)).matched ≠ [] := by
        apply loop_matched_ne_nil
        rw [stepFilter_matched_of_match hm, hs]
        simp
      constructor
      · intro h; exact absurd h hne
      · intro hall
        exact absurd (hall f (by simp)) (by simp [hm])
    · have hm' : matchesFilter rm f s.filtered = false := Bool.eq_false_iff.mpr hm
      rw [stepFilter_no_match hm', ih s hs]
      constructor
      · intro h g hg
        rcases List.mem_cons.mp hg with h1 | h1
        · rw [h1]; exact hm'
        · exact h g h1
      · intro h g hg
        exact h g (by simp [hg])

theorem stepFilter_blocked {rm : Str → Str → Bool} {rs : Str → Str → Str → Str}
    {s : LoopState} {f : ContentFilter}
    (h : s.action = some Action.blocked → s.filtered = blockNotice) :
    (stepFilter rm rs s f).action = some Action.blocked →
      (stepFilter rm rs s f).filtered = blockNotice := by
  unfold stepFilter
  split
  · dsimp only
    split
    · intro _; rfl
    · split
      · intro hq; simp at hq
      · split
        · intro hq; simp at hq
        · exact h
  · exact h

theorem loop_blocked (rm : Str → Str → Bool) (rs : Str → Str → Str → Str) :
    ∀ (fs : List ContentFilter) (s : LoopState),
      (s.action = some Action.blocked → s.filtered = blockNotice) →
      ((fs.foldl (stepFilter rm rs) s).action = some Action.blocked →
        (fs.foldl (stepFilter rm rs) s).filtered = blockNotice) := by
  intro fs
  induction fs with
  | nil => intro s h; exact h
  | cons f rest ih =>
    intro s h
    exact ih _ (stepFilter_blocked h)

theorem stepFilter_warned {rm : Str → Str → Bool} {rs : Str → Str → Str → Str}
    {t : Str} {s : LoopState} {f : ContentFilter} (h : unchangedInv t s) :
    unchangedInv t (stepFilter rm rs s f) := by
  unfold stepFilter
  split
  · dsimp only
    split
    · intro hd
      rcases hd with hd | hd <;> simp at hd
    · split
      · intro hd
        rcases hd with hd | hd <;> simp at hd
      · split
        · rename_i hlow
          intro _
          rcases hlow with ⟨-, hnone⟩
          exact h (Or.inl hnone)
        · exact h
  · exact h

theorem loop_warned (rm : Str → Str → Bool) (rs : Str → Str → Str → Str) :
    ∀ (fs : List ContentFilter) (t : Str) (s : LoopState),
      unchangedInv t s → unchangedInv t (fs.foldl (stepFilter rm rs) s) := by
  intro fs
  induction fs with
  | nil => intro t s h; exact h
  | cons f rest ih =>
    intro t s h
    exact ih t _ (stepFilter_warned h)

/-- Once `filter_content` reports `action = 'blocked'`, the returned
`filtered_content` is exactly the fixed block notice. -/
theorem filter_content_blocked_notice {rm : Str → Str → Bool} {rs : Str → Str → Str → Str}
    {rules : List ContentFilter} {content : Str} {ct : CType} {lang : Lang}
    {sid ip : Option Str}
    (h : (filter_content rm rs rules content ct lang sid ip).1.action = some Action.blocked) :
    (filter_content rm rs rules content ct lang sid ip).1.filtered_content = blockNotice := by
  unfold filter_content at h ⊢
  by_cases hsp : List.all content isPySpace = true
  · rw [if_pos hsp] at h
    simp at h
  · rw [if_neg hsp] at h ⊢
    dsimp only at h ⊢
    exact loop_blocked rm rs _ _ (by intro hc; simp at hc) h

/-- A `filter_content` run whose final action is `warned` (or no action at
all) returns the input text unchanged: low-severity matches never modify the
text. -/
theorem filter_content_warned_unchanged {rm : Str → Str → Bool} {rs : Str → Str → Str → Str}
    {rules : List ContentFilter} {content : Str} {ct : CType} {lang : Lang}
    {sid ip : Option Str}
    (h : (filter_content rm rs rules content ct lang sid ip).1.action = some Action.warned ∨
      (filter_content rm rs rules content ct lang sid ip).1.action = none) :
    (filter_content rm rs rules content ct lang sid ip).1.filtered_content = content := by
  unfold filter_content at h ⊢
  by_cases hsp : List.all content isPySpace = true
  · rw [if_pos hsp]
  · rw [if_neg hsp] at h ⊢
    dsimp only at h ⊢
    exact loop_warned rm rs _ content _ (fun _ => rfl) h.symm

/-- `is_filtered == false` exactly when the text is blank (early return) or
no applicable rule matches it. -/
theorem filter_content_is_filtered_false_iff (rm : Str → Str → Bool)
    (rs : Str → Str → Str → Str) (rules : List ContentFilter) (content : Str)
    (ct : CType) (lang : Lang) (sid ip : Option Str) :
    (filter_content rm rs rules content ct lang sid ip).1.is_filtered = false ↔
      (content.all isPySpace = true ∨
        ∀ f ∈ applicableFilters rules ct (resolveLang lang content),
          matchesFilter rm f content = false) := by
  unfold filter_content
  split
  · simp [*]
  · rename_i hsp
    dsimp only
    rw [Bool.not_eq_false', List.isEmpty_iff]
    rw [loop_matched_nil_iff rm rs _ _ rfl]
    constructor
    · intro h; exact Or.inr h
    · intro h
      rcases h with h | h
      · exact absurd h hsp
      · exact h

/-! ### Properties of the knowledge-context deduplication -/

theorem dedupLoop_spec (maxE : Nat) :
    ∀ (l : List KnowledgeEntry) (seen : List Nat),
      ((dedupLoop maxE l seen).map KnowledgeEntry.id).Nodup ∧
        ∀ e ∈ dedupLoop maxE l seen,
          seen.contains e.id = false ∧ l.find? (fun x => x.id == e.id) = some e := by
  intro l
  induction l with
  | nil => intro seen; simp [dedupLoop]
  | cons a rest ih =>
    intro seen
    unfold dedupLoop
    by_cases hseen : seen.contains a.id = true
    · rw [if_pos hseen]
      obtain ⟨ihnd, ihmem⟩ := ih seen
      refine ⟨ihnd, ?_⟩
      intro e he
      obtain ⟨h1, h2⟩ := ihmem e he
      refine ⟨h1, ?_⟩
      rw [List.find?_cons_of_neg, h2]
      intro hid
      rw [beq_iff_eq] at hid
      rw [hid] at hseen
      rw [hseen] at h1
      exact Bool.true_eq_false.mp h1
    · rw [if_neg hseen]
      by_cases hmax : maxE ≤ seen.length + 1
      · rw [if_pos hmax]
        refine ⟨by simp, ?_⟩
        intro e he
        rcases List.mem_singleton.mp he with rfl
        refine ⟨Bool.eq_false_iff.mpr hseen, ?_⟩
        rw [List.find?_cons_of_pos]
        simp
      · rw [if_neg hmax]
        obtain ⟨ihnd, ihmem⟩ := ih (a.id :: seen)
        constructor
        · rw [List.map_cons, List.nodup_cons]
          refine ⟨?_, ihnd⟩
          intro hmem
          rcases List.mem_map.mp hmem with ⟨e, he, hid⟩
          obtain ⟨h1, -⟩ := ihmem e he
          rw [List.contains_cons] at h1
          simp [hid] at h1
        · intro e he
          rcases List.mem_cons.mp he with rfl | he2
          · refine ⟨Bool.eq_false_iff.mpr hseen, ?_⟩
            rw [List.find?_cons_of_pos]
            simp
          · obtain ⟨h1, h2⟩ := ihmem e he2
            rw [List.contains_cons] at h1
            rcases Bool.or_eq_false_iff.mp h1 with ⟨h1a, h1b⟩
            refine ⟨h1b, ?_⟩
            rw [List.find?_cons_of_neg, h2]
            intro hid
            rw [beq_iff_eq] at hid
            rw [hid] at h1a
            simp at h1a

/-! ### Properties of the pending-query dedup window -/

theorem hasRecentDuplicate_iff (qs : List SearchQueryRec) (q : Str) (sid : Option Str)
    (now : Int) :
    hasRecentDuplicate qs q sid now = true ↔
      ∃ r ∈ qs, r.query = q ∧ r.session_id = sid ∧ now - 3600 ≤ r.created_at := by
  unfold hasRecentDuplicate
  rw [List.any_eq_true]
  constructor
  · rintro ⟨r, hr, hcond⟩
    simp only [Bool.and_eq_true, decide_eq_true_eq] at hcond
    exact ⟨r, hr, hcond.1.1, hcond.1.2, hcond.2⟩
  · rintro ⟨r, hr, h1, h2, h3⟩
    exact ⟨r, hr, by simp [h1, h2, h3]⟩

/-! ### Characterization of the banned-word matcher -/

theorem scanBW_eq_true_iff (w : Str) :
    ∀ (t : Str) (prev : Option Char),
      scanBW w prev t = true ↔
        ∃ pre post, t = pre ++ w ++ post ∧ leftDelimOk prev pre ∧ bwRightOk post = true := by
  intro t
  induction t with
  | nil =>
    intro prev
    unfold scanBW
    constructor
    · intro h
      simp only [Bool.and_eq_true] at h
      obtain ⟨⟨h1, h2⟩, -⟩ := h
      have hw : w = [] := by
        cases w with
        | nil => rfl
        | cons a as => simp [List.isPrefixOf] at h2
      exact ⟨[], [], by simp [hw], Or.inl ⟨rfl, h1⟩, rfl⟩
    · rintro ⟨pre, post, hsplit, hleft, hright⟩
      have h1 := List.append_eq_nil.mp hsplit.symm
      have h2 := List.append_eq_nil.mp h1.1
      rcases hleft with ⟨-, hprev⟩ | ⟨pre2, d, habs, -⟩
      · rw [h2.2]
        simp [List.isPrefixOf, hprev, bwRightOk]
      · rw [h2.1] at habs
        have hlen := congrArg List.length habs
        simp at hlen
    | cons c rest ih =>
    intro prev
    unfold scanBW
    rw [Bool.or_eq_true]
    constructor
    · intro h
      rcases h with h | h
      · simp only [Bool.and_eq_true] at h
        obtain ⟨⟨h1, h2⟩, h3⟩ := h
        rcases (isPrefixOf_eq_true_iff w (c :: rest)).mp h2 with ⟨post, hpost⟩
        refine ⟨[], post, by simp [hpost], Or.inl ⟨rfl, h1⟩, ?_⟩
        rw [hpost, List.drop_left] at h3
        exact h3
      · rcases (ih (some c)).mp h with ⟨pre, post, hsplit, hleft, hright⟩
        refine ⟨c :: pre, post, by simp [hsplit], ?_, hright⟩
        rcases hleft with ⟨hpe, hprev⟩ | ⟨pre2, d, hpd, hd⟩
        · subst hpe
          exact Or.inr ⟨[], c, by simp, hprev⟩
        · exact Or.inr ⟨c :: pre2, d, by simp [hpd], hd⟩
    · rintro ⟨pre, post, hsplit, hleft, hright⟩
      cases pre with
      | nil =>
        left
        rcases hleft with ⟨-, hprev⟩ | ⟨pre2, d, habs, -⟩
        · simp only [List.nil_append] at hsplit
          have hpf : w.isPrefixOf (c :: rest) = true :=
            (isPrefixOf_eq_true_iff w (c :: rest)).mpr ⟨post, hsplit⟩
          have hdrop : (c :: rest).drop w.length = post := by
            rw [hsplit, List.drop_left]
          simp [hprev, hpf, hdrop, hright]
        · have hlen := congrArg List.length habs
          simp at hlen
      | cons p pre' =>
        right
        simp only [List.cons_append, List.cons.injEq] at hsplit
        obtain ⟨rfl, hrest⟩ := hsplit
        apply (ih (some c)).mpr
        refine ⟨pre', post, hrest, ?_, hright⟩
        rcases hleft with ⟨habs, -⟩ | ⟨pre2, d, hpd, hd⟩
        · exact absurd habs (by simp)
        · cases pre2 with
          | nil =>
            simp only [List.nil_append, List.cons.injEq] at hpd
            obtain ⟨rfl, rfl⟩ := hpd
            exact Or.inl ⟨rfl, hd⟩
          | cons e pre2' =>
            simp only [List.cons_append, List.cons.injEq] at hpd
            obtain ⟨rfl, hpd2⟩ := hpd
            exact Or.inr ⟨pre2', d, hpd2, hd⟩

/-! ### Properties of the auto-grown knowledge entry -/

theorem generate_kb_entry_isSome (um : Str) (ai : Resp) :
    (generate_kb_entry_from_response um ai).isSome = true ↔
      ai.success = true ∧ 50 ≤ (ai.message.getD []).length := by
  unfold generate_kb_entry_from_response
  split
  · rename_i hcond
    constructor
    · intro hs; simp at hs
    · rintro ⟨h1, h2⟩
      rw [Bool.or_eq_true] at hcond
      rcases hcond with hc | hc
      · rw [Bool.not_eq_true'] at hc
        rw [h1] at hc
        exact absurd hc (by simp)
      · simp only [decide_eq_true_eq] at hc
        omega
  · rename_i hcond
    simp only [Option.isSome_some, true_iff]
    have hx : (!ai.success || decide ((ai.message.getD []).length < 50)) = false :=
      Bool.eq_false_iff.mpr hcond
    rcases Bool.or_eq_false_iff.mp hx with ⟨ha, hb⟩
    rw [decide_eq_false_iff_not] at hb
    rw [Bool.not_eq_false'] at ha
    exact ⟨ha, by omega⟩

theorem generate_kb_entry_fields (um : Str) (ai : Resp) (e : KnowledgeEntry)
    (h : generate_kb_entry_from_response um ai = some e) :
    e.source = some "ai_generated".toList ∧ e.confidence_score = some (0.8 : ℚ) ∧
      e.is_verified = some false ∧ e.question = um ∧ e.answer = ai.message.getD [] := by
  unfold generate_kb_entry_from_response at h
  split at h
  · exact absurd h (by simp)
  · injection h with h
    subst h
    exact ⟨rfl, rfl, rfl, rfl, rfl⟩

/-! ### Properties of the orchestrator -/

/-- C3 (amended): `process_message` returns a structured result — and in
particular absorbs moderation-log write failures and LLM failures — provided
the three unprotected writes (pending-query, request-log and
knowledge-entry creation) succeed; a failure of one of those writes is not
caught and escapes to the caller (see the counterexample). -/
theorem c3_amended_exception_containment (env : Env) (user_message : Str) (sid ip : Option Str)
    (hsq : env.searchQueryWriteFails = false) (hrl : env.requestLogFails = false)
    (hkb : env.kbEntryWriteFails = false) :
    ∃ v, process_message env user_message sid ip = Except.ok v := by
  unfold process_message
  dsimp only
  split
  · exact ⟨_, rfl⟩
  · rw [if_neg (by simp [hsq]), if_neg (by simp [hrl]), if_neg (by simp [hkb])]
    exact ⟨_, rfl⟩

/-- C7: for every message whose input moderation yields `action == 'blocked'`,
`process_message` terminates immediately with a failure result carrying the
block notice; no LLM call is issued, no request log is written, no pending
query and no knowledge entry is created. -/
theorem c7_blocked_input_early_exit (env : Env) (user_message : Str) (sid ip : Option Str)
    (h : (filter_content env.rm env.rs env.rules user_message CType.user_input
        Lang.auto sid ip).1.action = some Action.blocked) :
    ∃ resp tr, process_message env user_message sid ip = Except.ok (resp, tr) ∧
      resp.success = false ∧ resp.error = some blockedUserError ∧
      resp.message = some blockNotice ∧ tr.llmCalled = false ∧ tr.requestLog = none ∧
      tr.createdSearchQuery = none ∧ tr.newKbEntry = none := by
  unfold process_message
  dsimp only
  rw [if_pos h]
  refine ⟨_, _, rfl, rfl, rfl, ?_, rfl, rfl, rfl, rfl⟩
  rw [filter_content_blocked_notice h]

/-- C6: after a processed (non-blocked) message, a new auto-grown
`KnowledgeBaseEntry` (`source = 'ai_generated'`, `confidence_score = 0.8`,
`is_verified = false`, `question` = filtered user text, `answer` = final AI
text) is created if and only if no knowledge entry was retrieved, the LLM
call succeeded and the final response text has length at least 50. -/
theorem c6_auto_kb_entry_creation (env : Env) (user_message : Str) (sid ip : Option Str)
    (hnb : (filter_content env.rm env.rs env.rules user_message CType.user_input
        Lang.auto sid ip).1.action ≠ some Action.blocked)
    (hsq : env.searchQueryWriteFails = false) (hrl : env.requestLogFails = false)
    (hkb : env.kbEntryWriteFails = false) :
    ∃ resp tr, process_message env user_message sid ip = Except.ok (resp, tr) ∧
      (tr.newKbEntry.isSome = true ↔
        (get_context_for_ai env.faqStore env.kbStore
            (filter_content env.rm env.rs env.rules user_message CType.user_input
              Lang.auto sid ip).1.filtered_content 3 = [] ∧
          (moderatedAiResponse env sid ip).1.success = true ∧
          50 ≤ ((moderatedAiResponse env sid ip).1.message.getD []).length)) ∧
      ∀ e, tr.newKbEntry = some e →
        e.source = some "ai_generated".toList ∧ e.confidence_score = some (0.8 : ℚ) ∧
          e.is_verified = some false ∧
          e.question = (filter_content env.rm env.rs env.rules user_message CType.user_input
            Lang.auto sid ip).1.filtered_content ∧
          e.answer = (moderatedAiResponse env sid ip).1.message.getD [] := by
  unfold process_message
  dsimp only
  rw [if_neg hnb, if_neg (by simp [hsq]), if_neg (by simp [hrl]), if_neg (by simp [hkb])]
  refine ⟨_, _, rfl, ?_, ?_⟩
  · dsimp only
    constructor
    · intro hsome
      by_cases hc : (get_context_for_ai env.faqStore env.kbStore
          (filter_content env.rm env.rs env.rules user_message CType.user_input
            Lang.auto sid ip).1.filtered_content 3).isEmpty = true ∧
          (moderatedAiResponse env sid ip).1.success = true
      · rw [if_pos hc] at hsome
        obtain ⟨h1, h2⟩ := (generate_kb_entry_isSome _ _).mp hsome
        exact ⟨List.isEmpty_iff.mp hc.1, h1, h2⟩
      · rw [if_neg hc] at hsome
        simp at hsome
    · rintro ⟨h1, h2, h3⟩
      rw [if_pos ⟨List.isEmpty_iff.mpr h1, h2⟩]
      exact (generate_kb_entry_isSome _ _).mpr ⟨h2, h3⟩
  · dsimp only
    intro e he
    by_cases hc : (get_context_for_ai env.faqStore env.kbStore
        (filter_content env.rm env.rs env.rules user_message CType.user_input
          Lang.auto sid ip).1.filtered_content 3).isEmpty = true ∧
        (moderatedAiResponse env sid ip).1.success = true
    · rw [if_pos hc] at he
      exact generate_kb_entry_fields _ _ _ he
    · rw [if_neg hc] at he
      exact absurd he (by simp)

/-! ### Claim theorems -/

/-- C1: the claim fails on the code.  The text `bad ugly` matches the active
high-severity rule `c1RuleHigh` (applicable to `user_input` in every
language), yet `filter_content` returns `action = 'warned'` with the text
unchanged instead of `action = 'blocked'` with the block notice: the
`order_by('-severity', ...)` sort compares the severity strings, placing
`low` (and `medium`) before `high`, and the high-severity branch requires
`not action_taken`, which the earlier low match has already set. -/
theorem c1_high_severity_match_not_blocked :
    matchesFilter rmNone c1RuleHigh "bad ugly".toList = true ∧
    c1RuleHigh.severity = Severity.high ∧ c1RuleHigh.is_active = true ∧
    c1RuleHigh.applies_to_input = true ∧ c1RuleHigh.language = Lang.all ∧
    (filter_content rmNone rsId [c1RuleHigh, c1RuleLow] "bad ugly".toList
      CType.user_input Lang.auto none none).1.action = some Action.warned ∧
    (filter_content rmNone rsId [c1RuleHigh, c1RuleLow] "bad ugly".toList
      CType.user_input Lang.auto none none).1.filtered_content = "bad ugly".toList := by
  decide

/-- C2: the claim fails on the code.  `order_by('-severity', '-updated_at')`
sorts the severity CharField by its string value, so the candidate order is
`medium`, `low`, `high` — not high first: with one high and one medium rule
both matching `bad ugly`, the applicable list puts the medium rule (id 3)
first and the moderation log records it, not the high rule, as the matched
rule. -/
theorem c2_severity_string_order :
    (applicableFilters [c2RuleHigh, c2RuleMed] CType.user_input Lang.en).map
      ContentFilter.id = [3, 1] ∧
    c2RuleMed.severity = Severity.medium ∧ c2RuleHigh.severity = Severity.high ∧
    matchesFilter rmNone c2RuleHigh "bad ugly".toList = true ∧
    matchesFilter rmNone c2RuleMed "bad ugly".toList = true ∧
    ((filter_content rmNone rsId [c2RuleHigh, c2RuleMed] "bad ugly".toList
      CType.user_input Lang.auto none none).2.map ModLogRec.filter_matched) =
        some (some 3) := by
  decide

/-- C3 (counterexample): in a benign environment whose `RequestLog` write
fails, `process_message` does not return a result value — the exception
escapes, because `RequestLog.objects.create` is not inside any
`try/except`. -/
theorem c3_request_log_failure_escapes :
    process_message c3Env "hello".toList none none = Except.error DBErr.requestLogErr := by
  decide

/-- C4 (counterexample): in `(bad)` the banned word `bad` is delimited by
non-word characters on both sides, so the claim's word-boundary semantics
would match, but the rule does not: the left side of the pattern is
`(?:^|\s)`, which admits only the start of the text or whitespace, not a
general non-word character. -/
theorem c4_punct_delimited_not_matched :
    "(bad)".toList = ['('] ++ "bad".toList ++ [')'] ∧
    isWordChar '(' = false ∧ isWordChar ')' = false ∧ isPySpace '(' = false ∧
    c4Rule.content = "bad".toList ∧ c4Rule.filter_type = FilterType.banned_word ∧
    c4Rule.is_active = true ∧
    matchesFilter rmNone c4Rule "(bad)".toList = false := by
  decide

/-- C4 (amended): a `bannedWord` rule matches a text exactly when the
lowered banned word occurs in the lowered text preceded by the start of the
text or a whitespace character, and followed by the end of the text, a
whitespace character or a non-word character.  (The right side accepts any
non-word character, the left side only whitespace or the start of text.) -/
theorem c4_banned_word_characterization (rm : Str → Str → Bool) (f : ContentFilter)
    (hf : f.filter_type = FilterType.banned_word) (t : Str) :
    matchesFilter rm f t = true ↔
      ∃ pre post, pyLower t = pre ++ pyLower f.content ++ post ∧
        (pre = [] ∨ ∃ pre2 c, pre = pre2 ++ [c] ∧ isPySpace c = true) ∧
        bwRightOk post = true := by
  unfold matchesFilter
  rw [hf]
  rw [scanBW_eq_true_iff]
  unfold leftDelimOk
  simp [bwPrevOk]

/-- C5 (counterexample): the text `қа` contains the Kazakh-specific letter
`қ`, so the claim requires detection `kk`; the code checks `[а-яё]` first
and the Cyrillic `а` makes it return `ru`. -/
theorem c5_kk_letter_detected_ru :
    hasKkChar "қа".toList = true ∧ autoDetectLanguage "қа".toList = Lang.ru ∧
    resolveLang Lang.auto "қа".toList = Lang.ru := by
  decide

/-- C5 (amended): auto-detection returns `ru` whenever the lowered text
contains a character of `[а-яё]` (even if Kazakh-specific letters are also
present); `kk` when it contains no `[а-яё]` character but some
Kazakh-specific letter; and `en` otherwise. -/
theorem c5_detection_characterization (t : Str) :
    (autoDetectLanguage t = Lang.ru ↔ hasRuChar t = true) ∧
    (autoDetectLanguage t = Lang.kk ↔ hasRuChar t = false ∧ hasKkChar t = true) ∧
    (autoDetectLanguage t = Lang.en ↔ hasRuChar t = false ∧ hasKkChar t = false) := by
  unfold autoDetectLanguage
  rcases Bool.eq_false_or_eq_true (hasRuChar t) with h1 | h1 <;>
    rcases Bool.eq_false_or_eq_true (hasKkChar t) with h2 | h2 <;>
      simp [h1, h2]

/-- C8: recording a pending query creates a new `SearchQuery` row (with
`results_found = false`, `should_add_to_kb = true`, the detected language
and the current timestamp) if and only if no row with the same query text
and session id was created within the preceding hour; a repeat inside the
window leaves the table unchanged. -/
theorem c8_pending_query_dedup_window (qs : List SearchQueryRec) (q : Str)
    (sid : Option Str) (now : Int) :
    ((¬ ∃ r ∈ qs, r.query = q ∧ r.session_id = sid ∧ now - 3600 ≤ r.created_at) →
      log_search_query_for_kb qs q sid now =
        qs ++ [{ query := q, language := kbDetectLanguage q, results_found := false,
                 should_add_to_kb := true, added_to_kb := false, ai_response := none,
                 session_id := sid, created_at := now }]) ∧
    ((∃ r ∈ qs, r.query = q ∧ r.session_id = sid ∧ now - 3600 ≤ r.created_at) →
      log_search_query_for_kb qs q sid now = qs) := by
  constructor
  · intro h
    have hd : hasRecentDuplicate qs q sid now = false := by
      rw [Bool.eq_false_iff]
      intro hx
      exact h ((hasRecentDuplicate_iff qs q sid now).mp hx)
    unfold log_search_query_for_kb newSearchQueryFor
    rw [hd]
    rfl
  · intro h
    have hd : hasRecentDuplicate qs q sid now = true :=
      (hasRecentDuplicate_iff qs q sid now).mpr h
    unfold log_search_query_for_kb newSearchQueryFor
    rw [hd]
    rfl

/-- C9 (counterexample): a single active low-severity phrase rule for `bad`
satisfies the claim's proviso — neither the default replacement `***` nor
the block notice matches any rule — yet applying `filter_content` a second
time to the first pass's output reports `is_filtered = true` again, because
a warn-only match leaves the text unchanged. -/
theorem c9_warn_only_second_pass_filters_again :
    matchesFilter rmNone c9Rule "***".toList = false ∧
    matchesFilter rmNone c9Rule blockNotice = false ∧
    (filter_content rmNone rsId [c9Rule] "bad".toList CType.user_input Lang.auto
      none none).1.is_filtered = true ∧
    (filter_content rmNone rsId [c9Rule]
        (filter_content rmNone rsId [c9Rule] "bad".toList CType.user_input Lang.auto
          none none).1.filtered_content
        CType.user_input Lang.auto none none).1.is_filtered = true := by
  decide

/-- C9 (amended): re-filtering the first pass's output under the same rules
reports `is_filtered = false` exactly when that output is blank or matches
no applicable rule; moreover a first pass whose action is `warned` returns
its input unchanged, which is why a warn-only match is flagged again by the
second pass. -/
theorem c9_second_pass_characterization (rm : Str → Str → Bool)
    (rs : Str → Str → Str → Str) (rules : List ContentFilter) (t : Str) (ct : CType)
    (lang : Lang) (sid ip : Option Str) :
    ((filter_content rm rs rules
        (filter_content rm rs rules t ct lang sid ip).1.filtered_content
        ct lang sid ip).1.is_filtered = false ↔
      ((filter_content rm rs rules t ct lang sid ip).1.filtered_content.all
          isPySpace = true ∨
        ∀ f ∈ applicableFilters rules ct
            (resolveLang lang (filter_content rm rs rules t ct lang sid ip).1.filtered_content),
          matchesFilter rm f
            (filter_content rm rs rules t ct lang sid ip).1.filtered_content = false)) ∧
    ((filter_content rm rs rules t ct lang sid ip).1.action = some Action.warned →
      (filter_content rm rs rules t ct lang sid ip).1.filtered_content = t) :=
  ⟨filter_content_is_filtered_false_iff rm rs rules _ ct lang sid ip,
   fun h => filter_content_warned_unchanged (Or.inl h)⟩

/-- C10: `get_context_for_ai` deduplicates by numeric id alone: the returned
ids are pairwise distinct (so a curated FAQ row and an auto-grown row that
share a numeric id can never both appear), entries of the result with equal
ids are identical, and each returned entry is the first accumulated entry
carrying its id. -/
theorem c10_context_dedup_by_id_only (faqStore kbStore : List KnowledgeEntry)
    (msg : Str) (maxE : Nat) :
    ((get_context_for_ai faqStore kbStore msg maxE).map KnowledgeEntry.id).Nodup ∧
    (∀ e1 ∈ get_context_for_ai faqStore kbStore msg maxE,
      ∀ e2 ∈ get_context_for_ai faqStore kbStore msg maxE, e1.id = e2.id → e1 = e2) ∧
    (∀ e ∈ get_context_for_ai faqStore kbStore msg maxE,
      (relevantEntries faqStore kbStore msg).find? (fun x => x.id == e.id) = some e) := by
  unfold get_context_for_ai
  obtain ⟨hnd, hmem⟩ := dedupLoop_spec maxE (relevantEntries faqStore kbStore msg) []
  refine ⟨hnd, ?_, fun e he => (hmem e he).2⟩
  intro e1 h1 e2 h2 hid
  have f1 := (hmem e1 h1).2
  have f2 := (hmem e2 h2).2
  rw [hid] at f1
  rw [f1] at f2
  exact Option.some.inj f2

/-! ### Witnesses -/

/-- Witness for C3 (amended): in the environment with all unprotected writes
succeeding and the best-effort moderation-log write failing, the hypotheses
hold and `process_message` returns a result. -/
theorem c3_amended_witness :
    c3EnvW.searchQueryWriteFails = false ∧ c3EnvW.requestLogFails = false ∧
    c3EnvW.kbEntryWriteFails = false ∧
    ∃ v, process_message c3EnvW "hello".toList none none = Except.ok v :=
  ⟨rfl, rfl, rfl, c3_amended_exception_containment c3EnvW "hello".toList none none rfl rfl rfl⟩

/-- Witness for C4 (amended): the characterization instantiated at the
banned-word rule for `bad` and the text `a bad x`. -/
theorem c4_amended_witness :
    c4Rule.filter_type = FilterType.banned_word ∧
    (matchesFilter rmNone c4Rule "a bad x".toList = true ↔
      ∃ pre post, pyLower "a bad x".toList = pre ++ pyLower c4Rule.content ++ post ∧
        (pre = [] ∨ ∃ pre2 c, pre = pre2 ++ [c] ∧ isPySpace c = true) ∧
        bwRightOk post = true) :=
  ⟨rfl, c4_banned_word_characterization rmNone c4Rule rfl "a bad x".toList⟩

/-- Witness for C5 (amended): the characterization instantiated at the
Kazakh-only text `қ`. -/
theorem c5_characterization_witness :
    (autoDetectLanguage "қ".toList = Lang.ru ↔ hasRuChar "қ".toList = true) ∧
    (autoDetectLanguage "қ".toList = Lang.kk ↔
      hasRuChar "қ".toList = false ∧ hasKkChar "қ".toList = true) ∧
    (autoDetectLanguage "қ".toList = Lang.en ↔
      hasRuChar "қ".toList = false ∧ hasKkChar "қ".toList = false) :=
  c5_detection_characterization ("қ".toList)

/-- Witness for C6: in the benign environment with a 60-character successful
answer and no knowledge rows, the hypotheses hold and the characterization
applies (the created entry exists since the right-hand side of the
equivalence is decidably true there); a companion check evaluates the
40-character variant, where no entry is created. -/
theorem c6_witness :
    ((filter_content c6Env60.rm c6Env60.rs c6Env60.rules "hello".toList CType.user_input
        Lang.auto none none).1.action ≠ some Action.blocked) ∧
    (∃ resp tr, process_message c6Env60 "hello".toList none none = Except.ok (resp, tr) ∧
      (tr.newKbEntry.isSome = true ↔
        (get_context_for_ai c6Env60.faqStore c6Env60.kbStore
            (filter_content c6Env60.rm c6Env60.rs c6Env60.rules "hello".toList
              CType.user_input Lang.auto none none).1.filtered_content 3 = [] ∧
          (moderatedAiResponse c6Env60 none none).1.success = true ∧
          50 ≤ ((moderatedAiResponse c6Env60 none none).1.message.getD []).length)) ∧
      ∀ e, tr.newKbEntry = some e →
        e.source = some "ai_generated".toList ∧ e.confidence_score = some (0.8 : ℚ) ∧
          e.is_verified = some false ∧
          e.question = (filter_content c6Env60.rm c6Env60.rs c6Env60.rules "hello".toList
            CType.user_input Lang.auto none none).1.filtered_content ∧
          e.answer = (moderatedAiResponse c6Env60 none none).1.message.getD []) ∧
    (match process_message c6Env60 "hello".toList none none with
      | Except.ok (_, tr) => tr.newKbEntry.isSome
      | Except.error _ => false) = true ∧
    (match process_message c6Env40 "hello".toList none none with
      | Except.ok (_, tr) => tr.newKbEntry.isNone
      | Except.error _ => false) = true :=
  ⟨by decide, c6_auto_kb_entry_creation c6Env60 "hello".toList none none (by decide) rfl rfl rfl,
   by decide, by decide⟩

/-- Witness for C7: the rule set of `c7Env` blocks the input `bad`, and the
early-exit conclusion holds there. -/
theorem c7_witness :
    (filter_content c7Env.rm c7Env.rs c7Env.rules "bad".toList CType.user_input Lang.auto
      none none).1.action = some Action.blocked ∧
    ∃ resp tr, process_message c7Env "bad".toList none none = Except.ok (resp, tr) ∧
      resp.success = false ∧ resp.error = some blockedUserError ∧
      resp.message = some blockNotice ∧ tr.llmCalled = false ∧ tr.requestLog = none ∧
      tr.createdSearchQuery = none ∧ tr.newKbEntry = none :=
  ⟨by decide, c7_blocked_input_early_exit c7Env "bad".toList none none (by decide)⟩

/-- Witness for C8: on an empty table the query is recorded; a repeat 1000
seconds later is deduplicated; a repeat far outside the window creates a new
row. -/
theorem c8_witness :
    log_search_query_for_kb [] (['q'] : Str) none 2000 =
      [] ++ [{ query := ['q'], language := kbDetectLanguage ['q'], results_found := false,
               should_add_to_kb := true, added_to_kb := false, ai_response := none,
               session_id := none, created_at := 2000 }] ∧
    log_search_query_for_kb [c8Rec] (['q'] : Str) none 2000 = [c8Rec] ∧
    log_search_query_for_kb [c8Rec] (['q'] : Str) none 99999 =
      [c8Rec] ++ [{ query := ['q'], language := kbDetectLanguage ['q'], results_found := false,
                    should_add_to_kb := true, added_to_kb := false, ai_response := none,
                    session_id := none, created_at := 99999 }] :=
  ⟨(c8_pending_query_dedup_window [] ['q'] none 2000).1 (by decide),
   (c8_pending_query_dedup_window [c8Rec] ['q'] none 2000).2 (by decide),
   (c8_pending_query_dedup_window [c8Rec] ['q'] none 99999).1 (by decide)⟩

/-- Witness for C9 (amended): the characterization instantiated at the
warn-only scenario. -/
theorem c9_characterization_witness :
    ((filter_content rmNone rsId [c9Rule]
        (filter_content rmNone rsId [c9Rule] "bad".toList CType.user_input Lang.auto
          none none).1.filtered_content
        CType.user_input Lang.auto none none).1.is_filtered = false ↔
      ((filter_content rmNone rsId [c9Rule] "bad".toList CType.user_input Lang.auto
          none none).1.filtered_content.all isPySpace = true ∨
        ∀ f ∈ applicableFilters [c9Rule] CType.user_input
            (resolveLang Lang.auto
              (filter_content rmNone rsId [c9Rule] "bad".toList CType.user_input Lang.auto
                none none).1.filtered_content),
          matchesFilter rmNone f
            (filter_content rmNone rsId [c9Rule] "bad".toList CType.user_input Lang.auto
              none none).1.filtered_content = false)) ∧
    ((filter_content rmNone rsId [c9Rule] "bad".toList CType.user_input Lang.auto
        none none).1.action = some Action.warned →
      (filter_content rmNone rsId [c9Rule] "bad".toList CType.user_input Lang.auto
        none none).1.filtered_content = "bad".toList) :=
  c9_second_pass_characterization rmNone rsId [c9Rule] "bad".toList CType.user_input
    Lang.auto none none

/-- Witness for C10: with a curated FAQ row and an auto-grown row sharing
numeric id 1 and both matching the message `alpha`, only the first-seen row
survives deduplication. -/
theorem c10_witness :
    (((get_context_for_ai [c10Faq] [c10Kb] "alpha".toList 3).map KnowledgeEntry.id).Nodup ∧
      (∀ e1 ∈ get_context_for_ai [c10Faq] [c10Kb] "alpha".toList 3,
        ∀ e2 ∈ get_context_for_ai [c10Faq] [c10Kb] "alpha".toList 3,
          e1.id = e2.id → e1 = e2) ∧
      (∀ e ∈ get_context_for_ai [c10Faq] [c10Kb] "alpha".toList 3,
        (relevantEntries [c10Faq] [c10Kb] "alpha".toList).find?
          (fun x => x.id == e.id) = some e)) ∧
    relevantEntries [c10Faq] [c10Kb] "alpha".toList = [c10Faq, c10Kb] ∧
    get_context_for_ai [c10Faq] [c10Kb] "alpha".toList 3 = [c10Faq] :=
  ⟨c10_context_dedup_by_id_only [c10Faq] [c10Kb] "alpha".toList 3, by decide, by decide⟩

end AIChat
